import Mathlib

/-!
Verification of the fake-news-detector pipeline (`streamlit_app.py`).

The program is a Streamlit application orchestrating three external services
(an LLM for assumption generation / evaluation / synthesis, and a web-search
API).  We embed its own logic shallowly:

* external calls become oracle parameters; an oracle returning
  `Except.error e` models the Python call raising an exception `e`;
* Python strings are Lean `String`s (`data : List Char`); `str.strip`,
  `str.lower`, `str.splitlines`, `str.replace("*", "")` are re-implemented
  below, following CPython semantics for the character classes involved;
* a Python `dict` built by insertion is an association list where inserting
  an existing key overwrites the value in place (keeping the key's original
  position) and a fresh key is appended — CPython's insertion-order
  semantics;
* `re.search` with a literal pattern is substring containment.
-/

namespace StreamlitApp

/-- Python whitespace characters stripped by `str.strip()` (ASCII range). -/
def pyIsSpace (c : Char) : Bool :=
  c = ' ' || c = '\t' || c = '\n' || c = '\r' || c = '\x0b' || c = '\x0c'

/-- Python `s.strip()`: remove leading and trailing whitespace. -/
def pyStrip (s : String) : String :=
  ⟨((s.data.dropWhile pyIsSpace).reverse.dropWhile pyIsSpace).reverse⟩

/-- Python `s.lower()` (the program only ever lowers ASCII text). -/
def pyLower (s : String) : String :=
  ⟨s.data.map Char.toLower⟩

/-- `listContains hay needle = true` iff `needle` occurs contiguously in
`hay`; this is what `re.search` with a literal (metacharacter-free) pattern
decides. -/
def listContains : List Char → List Char → Bool
  | [], needle => needle.isEmpty
  | hay@(_ :: t), needle => needle.isPrefixOf hay || listContains t needle

/-- Substring containment on strings, mirroring
`re.search(literal, text) is not None`. -/
def containsSub (hay needle : String) : Bool :=
  listContains hay.data needle.data

/-- `check_result` (lines 225–239): lowercase the text, then look for the
literal `"final result: fake"`, else `"final result: real"`, else `None`
(the caller renders `None` as the neutral / UNKNOWN outcome). -/
def check_result (text : String) : Option String :=
  let text_lower := pyLower text
  if containsSub text_lower "final result: fake" then some "FAKE"
  else if containsSub text_lower "final result: real" then some "REAL"
  else none

/-! ### Substring containment, characterised -/

theorem isPrefixOf_iff_exists (l₁ l₂ : List Char) :
    l₁.isPrefixOf l₂ = true ↔ ∃ t, l₂ = l₁ ++ t := by
  induction l₁ generalizing l₂ with
  | nil => simp [List.isPrefixOf]
  | cons a as ih =>
    cases l₂ with
    | nil => simp [List.isPrefixOf]
    | cons b bs =>
      simp only [List.isPrefixOf, Bool.and_eq_true, beq_iff_eq, ih,
        List.cons_append, List.cons.injEq]
      constructor
      · rintro ⟨rfl, t, rfl⟩
        exact ⟨t, rfl, rfl⟩
      · rintro ⟨t, rfl, rfl⟩
        exact ⟨rfl, t, rfl⟩

theorem listContains_iff_exists (hay needle : List Char) :
    listContains hay needle = true ↔ ∃ pre post, hay = pre ++ needle ++ post := by
  induction hay with
  | nil =>
    simp only [listContains, List.isEmpty_iff]
    constructor
    · rintro rfl
      exact ⟨[], [], rfl⟩
    · rintro ⟨pre, post, h⟩
      rcases List.append_eq_nil.1 h.symm with ⟨h₁, h₂⟩
      exact (List.append_eq_nil.1 h₁).2
  | cons c t ih =>
    simp only [listContains, Bool.or_eq_true, isPrefixOf_iff_exists, ih]
    constructor
    · rintro (⟨post, h⟩ | ⟨pre, post, rfl⟩)
      · exact ⟨[], post, by simpa using h⟩
      · exact ⟨c :: pre, post, rfl⟩
    · rintro ⟨pre, post, h⟩
      cases pre with
      | nil => exact Or.inl ⟨post, by simpa using h⟩
      | cons p ps =>
        simp only [List.cons_append, List.cons.injEq] at h
        exact Or.inr ⟨ps, post, h.2⟩

theorem containsSub_iff_exists (hay needle : String) :
    containsSub hay needle = true ↔
      ∃ pre post, hay.data = pre ++ needle.data ++ post := by
  exact listContains_iff_exists hay.data needle.data

theorem containsSub_eq_false_iff (hay needle : String) :
    containsSub hay needle = false ↔
      ¬ ∃ pre post, hay.data = pre ++ needle.data ++ post := by
  rw [← containsSub_iff_exists hay needle]
  cases h : containsSub hay needle <;> simp

/-- C1: `check_result` is case-insensitive and matches anywhere: if the
lowered text contains the substring `"final result: fake"` it yields FAKE;
otherwise, if it contains `"final result: real"`, it yields REAL; if it
contains neither marker it yields `none`, the code's encoding of the
UNKNOWN verdict. -/
theorem check_result_marker_cases (t : String) :
    ((∃ pre post, (pyLower t).data = pre ++ ("final result: fake").data ++ post) →
        check_result t = some "FAKE") ∧
    ((¬ ∃ pre post, (pyLower t).data = pre ++ ("final result: fake").data ++ post) →
      (∃ pre post, (pyLower t).data = pre ++ ("final result: real").data ++ post) →
        check_result t = some "REAL") ∧
    ((¬ ∃ pre post, (pyLower t).data = pre ++ ("final result: fake").data ++ post) →
      (¬ ∃ pre post, (pyLower t).data = pre ++ ("final result: real").data ++ post) →
        check_result t = none) := by
  refine ⟨?_, ?_, ?_⟩
  · intro h
    have hc : containsSub (pyLower t) "final result: fake" = true :=
      (containsSub_iff_exists _ _).2 h
    simp [check_result, hc]
  · intro hf hr
    have hcf : containsSub (pyLower t) "final result: fake" = false :=
      (containsSub_eq_false_iff _ _).2 hf
    have hcr : containsSub (pyLower t) "final result: real" = true :=
      (containsSub_iff_exists _ _).2 hr
    simp [check_result, hcf, hcr]
  · intro hf hr
    have hcf : containsSub (pyLower t) "final result: fake" = false :=
      (containsSub_eq_false_iff _ _).2 hf
    have hcr : containsSub (pyLower t) "final result: real" = false :=
      (containsSub_eq_false_iff _ _).2 hr
    simp [check_result, hcf, hcr]

/-- C1 witness: the three branches of `check_result_marker_cases`
exercised at concrete inputs (mixed case, marker mid-text, no marker). -/
theorem check_result_marker_cases_witness :
    check_result "Verdict. Final Result: FAKE. Done" = some "FAKE" ∧
    check_result "Verdict. FINAL RESULT: Real. Done" = some "REAL" ∧
    check_result "no marker here" = none := by
  refine ⟨?_, ?_, ?_⟩
  · exact (check_result_marker_cases "Verdict. Final Result: FAKE. Done").1
      ⟨("verdict. ").data, (". done").data, by decide⟩
  · exact (check_result_marker_cases "Verdict. FINAL RESULT: Real. Done").2.1
      ((containsSub_eq_false_iff _ _).1 (by decide))
      ⟨("verdict. ").data, (". done").data, by decide⟩
  · exact (check_result_marker_cases "no marker here").2.2
      ((containsSub_eq_false_iff _ _).1 (by decide))
      ((containsSub_eq_false_iff _ _).1 (by decide))

/-- C4: when a text contains both the FAKE and the REAL marker (in any
letter case), `check_result` returns FAKE — the FAKE pattern is tested
first and wins. -/
theorem check_result_fake_precedence (t : String)
    (hf : ∃ pre post, (pyLower t).data = pre ++ ("final result: fake").data ++ post)
    ( _hr : ∃ pre post, (pyLower t).data = pre ++ ("final result: real").data ++ post) :
    check_result t = some "FAKE" := by
  have hc : containsSub (pyLower t) "final result: fake" = true :=
    (containsSub_iff_exists _ _).2 hf
  simp [check_result, hc]

/-- C4 witness: a text carrying both markers yields FAKE. -/
theorem check_result_fake_precedence_witness :
    check_result "Final Result: FAKE but also Final Result: REAL" = some "FAKE" := by
  exact check_result_fake_precedence "Final Result: FAKE but also Final Result: REAL"
    ⟨[], (" but also final result: real").data, by decide⟩
    ⟨("final result: fake but also ").data, [], by decide⟩

/-! ### Assumption generation -/

/-- Line-break characters recognised by Python `str.splitlines()`. -/
def pyIsLineBreak (c : Char) : Bool :=
  c = '\n' || c = '\r' || c = '\x0b' || c = '\x0c' ||
  c = '\x1c' || c = '\x1d' || c = '\x1e' || c = '\x85' ||
  c = '\u2028' || c = '\u2029'

/-- Worker for `pySplitlines`; `acc` holds the current line reversed. -/
def splitlinesAux : List Char → List Char → List String
  | [], acc => if acc.isEmpty then [] else [⟨acc.reverse⟩]
  | '\r' :: '\n' :: rest, acc => ⟨acc.reverse⟩ :: splitlinesAux rest []
  | c :: rest, acc =>
    if pyIsLineBreak c then ⟨acc.reverse⟩ :: splitlinesAux rest []
    else splitlinesAux rest (c :: acc)

/-- Python `s.splitlines()`: split at line boundaries (`\r\n` counts as a
single boundary), with no trailing empty line. -/
def pySplitlines (s : String) : List String :=
  splitlinesAux s.data []

/-- Python `s.replace("*", "")`: every asterisk, anywhere in `s`, is
removed. -/
def removeStars (s : String) : String :=
  ⟨s.data.filter (fun c => c != '*')⟩

/-- `create_template` (lines 41–59): the generation prompt embedding the
user statement. -/
def create_template (user_input : String) : String :=
  "Here is a statement:\n" ++ user_input ++
  "\nMake a bullet point list of the assumptions you made when given the above statement.\nThese assumptions will then be used to check online for the validity of the statement.\nOnly Give Bullet Points, No Other Text\n\nExample:\n\nInput:\ndeepseek company is owned by elon musk\n\nOutput:\n* Does elon musk own deepseek?\n* Does Elon Musk have any publicly known business interests or holdings that could include a company named \"Deepseek\"?\n* Are there any news articles, press releases, or official statements confirming Elon Musk\x27s ownership of \"Deepseek\"?\n* Do any financial databases or corporate registries list Elon Musk as an owner or shareholder of \"Deepseek\"?\n"

/-- `generate_assertions` (lines 62–79).  The LLM call
`model.generate_content_async(template)` is the oracle `llm`; an
`Except.error` models the call raising.  On success the response text is
stripped, split into lines, blank lines are dropped and each kept line is
stripped and has its asterisks removed; on any exception the function logs
and returns `[]`. -/
def generate_assertions (llm : String → Except String String)
    (user_input : String) : List String :=
  let template := create_template user_input
  match llm template with
  | .error _ => []
  | .ok text =>
    let assertions := pyStrip text
    (pySplitlines assertions).filterMap fun line =>
      if (pyStrip line).isEmpty then none
      else some (removeStars (pyStrip line))

/-- C6: any exception in the LLM call makes `generate_assertions` return
the empty list instead of propagating the error. -/
theorem generate_assertions_error_empty (llm : String → Except String String)
    (user_input e : String)
    (h : llm (create_template user_input) = Except.error e) :
    generate_assertions llm user_input = [] := by
  simp [generate_assertions, h]

/-- C6 witness: an oracle that always raises yields no assertions. -/
theorem generate_assertions_error_empty_witness :
    generate_assertions (fun _ => Except.error "quota exceeded") "some claim" = [] :=
  generate_assertions_error_empty (fun _ => Except.error "quota exceeded")
    "some claim" "quota exceeded" rfl

/-- The per-line transformation claim C8 asserts, built from the claim's
words: "the line's content with leading bullet markers and surrounding
whitespace removed". -/
def claimedBulletTrim (line : String) : String :=
  pyStrip ⟨(pyStrip line).data.dropWhile (fun c => c = '*')⟩

theorem filterMap_if_eq {α β : Type} (p : α → Bool) (f : α → β) (l : List α) :
    l.filterMap (fun x => if p x then none else some (f x)) =
      (l.filter (fun x => !p x)).map f := by
  induction l with
  | nil => rfl
  | cons a t ih => cases h : p a <;> simp [List.filterMap_cons, h, ih]

/-- C8 counterexample: on the single-line response `"* a*b"` the code
keeps the asterisk-adjacent space and deletes the interior asterisk,
returning `" ab"`, whereas removing only leading bullet markers and
surrounding whitespace would give `"a*b"`. -/
theorem generate_assertions_bullet_cex :
    generate_assertions (fun _ => Except.ok "* a*b") "s" = [" ab"] ∧
    claimedBulletTrim "* a*b" = "a*b" ∧
    (" ab" : String) ≠ "a*b" := by
  refine ⟨by decide, by decide, by decide⟩

/-- C8 amended: on a successful LLM call, `generate_assertions` splits the
stripped response on line boundaries, drops blank lines, and maps each
remaining line to `removeStars (pyStrip line)` — surrounding whitespace is
stripped first and then every asterisk anywhere in the line is removed
(which can leave interior whitespace exposed at the front); consequently
no returned assumption contains an asterisk. -/
theorem generate_assertions_ok_shape (llm : String → Except String String)
    (user_input resp : String)
    (h : llm (create_template user_input) = Except.ok resp) :
    generate_assertions llm user_input =
      ((pySplitlines (pyStrip resp)).filter (fun l => !(pyStrip l).isEmpty)).map
        (fun l => removeStars (pyStrip l)) ∧
    (generate_assertions llm user_input).all
      (fun a => a.data.all (fun c => c != '*')) = true := by
  constructor
  · simp only [generate_assertions, h]
    exact filterMap_if_eq _ _ _
  · rw [List.all_eq_true]
    intro a ha
    rw [List.all_eq_true]
    intro c hc
    simp only [generate_assertions, List.mem_filterMap, h] at ha
    obtain ⟨line, _, heq⟩ := ha
    by_cases hp : (pyStrip line).isEmpty
    · simp [hp] at heq
    · rw [if_neg hp] at heq
      obtain rfl := Option.some.inj heq
      exact (List.mem_filter.1 hc).2

/-- C8 amended witness: a concrete two-bullet response. -/
theorem generate_assertions_ok_shape_witness :
    generate_assertions (fun _ => Except.ok "* q one\n* q two") "u" =
      ((pySplitlines (pyStrip "* q one\n* q two")).filter
        (fun l => !(pyStrip l).isEmpty)).map (fun l => removeStars (pyStrip l)) ∧
    (generate_assertions (fun _ => Except.ok "* q one\n* q two") "u").all
      (fun a => a.data.all (fun c => c != '*')) = true :=
  generate_assertions_ok_shape (fun _ => Except.ok "* q one\n* q two")
    "u" "* q one\n* q two" rfl

/-! ### Evidence fetching -/

/-- One Tavily search hit; the program reads `title`, `content`, `url` with
`dict.get(key, "")`, so every field may be absent. -/
structure Evidence where
  title : Option String
  content : Option String
  url : Option String
deriving DecidableEq

/-- The Tavily response dictionary; the program reads
`result.get("results", [])`, so the key may be absent. -/
structure TavilyResponse where
  results : Option (List Evidence)
deriving DecidableEq

/-- `fetch_result` (lines 82–91): query the search API with the assertion;
on success return `(assertion, result.get("results", []))`, on any
exception log and return `(assertion, [])`. -/
def fetch_result (outcome : Except String TavilyResponse) (assertion : String) :
    String × List Evidence :=
  match outcome with
  | .ok result => (assertion, result.results.getD [])
  | .error _ => (assertion, [])

/-- Insertion into a CPython dict: an existing key keeps its position and
gets the new value; a fresh key is appended. -/
def dictInsert {α : Type} : List (String × α) → String → α → List (String × α)
  | [], k, v => [(k, v)]
  | p :: rest, k, v => if p.1 = k then (k, v) :: rest else p :: dictInsert rest k v

/-- CPython dict lookup on the association-list model. -/
def dictLookup {α : Type} : List (String × α) → String → Option α
  | [], _ => none
  | p :: rest, q => if p.1 = q then some p.2 else dictLookup rest q

/-- The list produced by `asyncio.gather` in `fetch_all_results` (lines
98–100): one `fetch_result` outcome per assertion, in task order.  The
oracle `searchAt` gives the outcome of the `i`-th search task, so two
tasks for the same assertion string may resolve differently. -/
def gatherResults (searchAt : Nat → Except String TavilyResponse)
    (assertions : List String) : List (String × List Evidence) :=
  assertions.enum.map fun ia => fetch_result (searchAt ia.1) ia.2

/-- `fetch_all_results` (lines 94–102): gather all per-assertion results
and build the dict `{assertion: res for assertion, res in results}`. -/
def fetch_all_results (searchAt : Nat → Except String TavilyResponse)
    (assertions : List String) : List (String × List Evidence) :=
  (gatherResults searchAt assertions).foldl (fun d p => dictInsert d p.1 p.2) []

/-- C7: an exception in the search call makes `fetch_result` return the
assertion paired with the empty evidence list; the error never
propagates. -/
theorem fetch_result_error (e assertion : String) :
    fetch_result (Except.error e) assertion = (assertion, []) := rfl

/-! ### Dict-model lemmas -/

theorem fetch_result_fst (outcome : Except String TavilyResponse) (a : String) :
    (fetch_result outcome a).1 = a := by
  cases outcome <;> rfl

theorem enumFrom_map_snd {α : Type} : ∀ (n : Nat) (l : List α),
    (List.enumFrom n l).map Prod.snd = l
  | _, [] => rfl
  | n, _ :: t => by simp [List.enumFrom, enumFrom_map_snd (n + 1) t]

theorem gatherResults_map_fst (searchAt : Nat → Except String TavilyResponse)
    (assertions : List String) :
    (gatherResults searchAt assertions).map Prod.fst = assertions := by
  unfold gatherResults
  rw [List.map_map]
  have h : (Prod.fst ∘ fun ia : Nat × String => fetch_result (searchAt ia.1) ia.2) =
      Prod.snd := by
    funext ia
    exact fetch_result_fst (searchAt ia.1) ia.2
  rw [h, List.enum, enumFrom_map_snd]

theorem keys_dictInsert {α : Type} (d : List (String × α)) (k : String) (v : α) :
    (dictInsert d k v).map Prod.fst =
      if k ∈ d.map Prod.fst then d.map Prod.fst else d.map Prod.fst ++ [k] := by
  induction d with
  | nil => simp [dictInsert]
  | cons p rest ih =>
    by_cases hpk : p.1 = k
    · simp [dictInsert, hpk]
    · have hk : ¬ k = p.1 := fun h => hpk h.symm
      simp only [dictInsert, if_neg hpk, List.map_cons, ih, List.mem_cons]
      by_cases hm : k ∈ rest.map Prod.fst
      · simp [hm, hk]
      · simp [hm, hk]

theorem keys_foldl_sublist {α : Type} (pairs : List (String × α)) :
    ∀ d : List (String × α),
      List.Sublist ((pairs.foldl (fun d p => dictInsert d p.1 p.2) d).map Prod.fst)
        (d.map Prod.fst ++ pairs.map Prod.fst) := by
  induction pairs with
  | nil => intro d; simp
  | cons p ps ih =>
    intro d
    rw [List.foldl_cons]
    have h1 : List.Sublist ((dictInsert d p.1 p.2).map Prod.fst)
        (d.map Prod.fst ++ [p.1]) := by
      rw [keys_dictInsert]
      split_ifs
      · exact List.sublist_append_left _ _
      · exact List.Sublist.refl _
    have h2 := (ih (dictInsert d p.1 p.2)).trans (h1.append_right (ps.map Prod.fst))
    rw [List.append_assoc] at h2
    simpa using h2

theorem keys_foldl_nodup {α : Type} (pairs : List (String × α)) :
    ∀ d : List (String × α), (d.map Prod.fst).Nodup →
      ((pairs.foldl (fun d p => dictInsert d p.1 p.2) d).map Prod.fst).Nodup := by
  induction pairs with
  | nil => intro d hd; simpa using hd
  | cons p ps ih =>
    intro d hd
    rw [List.foldl_cons]
    refine ih (dictInsert d p.1 p.2) ?_
    rw [keys_dictInsert]
    split_ifs with hmem
    · exact hd
    · simp [List.nodup_append, hd, hmem]

theorem getLast?_append_singleton {α : Type} (l : List α) (a : α) :
    (l ++ [a]).getLast? = some a := by
  rw [List.getLast?_append_cons]
  rfl

theorem dictLookup_dictInsert {α : Type} (d : List (String × α)) (k : String)
    (v : α) (q : String) :
    dictLookup (dictInsert d k v) q = if q = k then some v else dictLookup d q := by
  induction d with
  | nil =>
    simp only [dictInsert, dictLookup]
    by_cases hq : q = k
    · simp [hq]
    · have hq' : ¬ k = q := fun h => hq h.symm
      simp [hq, hq']
  | cons p rest ih =>
    by_cases hpk : p.1 = k
    · simp only [dictInsert, if_pos hpk, dictLookup]
      by_cases hq : q = k
      · simp [hq]
      · have hq' : ¬ k = q := fun h => hq h.symm
        have hpq : ¬ p.1 = q := hpk ▸ hq'
        simp [hq, hq', hpq]
    · simp only [dictInsert, if_neg hpk, dictLookup, ih]
      by_cases hpq : p.1 = q
      · have hq : ¬ q = k := fun h => hpk (hpq.trans h)
        simp [hpq, hq]
      · simp [hpq]

theorem dictLookup_foldl_last {α : Type} (pairs : List (String × α)) (q : String) :
    ∀ d, dictLookup (pairs.foldl (fun d p => dictInsert d p.1 p.2) d) q =
      ((pairs.filter (fun p => p.1 == q)).getLast?).elim (dictLookup d q)
        (fun p => some p.2) := by
  induction pairs using List.reverseRecOn with
  | nil => intro d; rfl
  | append_singleton ps p ih =>
    intro d
    rw [List.foldl_append, List.foldl_cons, List.foldl_nil, dictLookup_dictInsert,
      List.filter_append]
    by_cases hpq : p.1 = q
    · have hqp : q = p.1 := hpq.symm
      rw [if_pos hqp]
      have hf : List.filter (fun r => r.1 == q) [p] = [p] := by simp [hpq]
      rw [hf, getLast?_append_singleton]
      rfl
    · have hqp : ¬ q = p.1 := fun h => hpq h.symm
      rw [if_neg hqp]
      have hf : List.filter (fun r => r.1 == q) [p] = [] := by simp [hpq]
      rw [hf, List.append_nil]
      exact ih d

theorem fetch_all_keys_sublist (searchAt : Nat → Except String TavilyResponse)
    (assertions : List String) :
    List.Sublist ((fetch_all_results searchAt assertions).map Prod.fst) assertions := by
  have h := keys_foldl_sublist (gatherResults searchAt assertions) []
  rw [gatherResults_map_fst] at h
  simpa [fetch_all_results] using h

theorem fetch_all_keys_nodup (searchAt : Nat → Except String TavilyResponse)
    (assertions : List String) :
    ((fetch_all_results searchAt assertions).map Prod.fst).Nodup :=
  keys_foldl_nodup (gatherResults searchAt assertions) [] (by simp)

/-- C3: whenever the Generator returns at least one Assumption, the key
sequence of the EvidenceSet built by `fetch_all_results` is a sublist of
the generated assumption sequence — every key was emitted by the
Generator, no key is added, and relative order is preserved. -/
theorem fetch_all_results_keys_of_generated (llm : String → Except String String)
    (searchAt : Nat → Except String TavilyResponse) (u : String)
    ( _h : generate_assertions llm u ≠ []) :
    List.Sublist
      ((fetch_all_results searchAt (generate_assertions llm u)).map Prod.fst)
      (generate_assertions llm u) :=
  fetch_all_keys_sublist searchAt (generate_assertions llm u)

/-- C3 witness: a two-assumption generation with failing searches. -/
theorem fetch_all_results_keys_of_generated_witness :
    generate_assertions (fun _ => Except.ok "* q one\n* q two") "u" ≠ [] ∧
    List.Sublist
      ((fetch_all_results (fun _ => Except.error "down")
        (generate_assertions (fun _ => Except.ok "* q one\n* q two") "u")).map Prod.fst)
      (generate_assertions (fun _ => Except.ok "* q one\n* q two") "u") :=
  ⟨by decide,
    fetch_all_results_keys_of_generated (fun _ => Except.ok "* q one\n* q two")
      (fun _ => Except.error "down") "u" (by decide)⟩

/-- C9: duplicate assumptions collapse into a single dict key.  The
EvidenceSet then has strictly fewer entries than the assumption sequence,
and each key's value is the fetch result of the last duplicate — the dict
comprehension overwrites earlier entries (`gatherResults` is in task
order, so `getLast?` picks the last duplicate's task). -/
theorem fetch_all_results_dup_collapse (llm : String → Except String String)
    (searchAt : Nat → Except String TavilyResponse) (u q : String)
    (h : ¬ (generate_assertions llm u).Nodup) :
    (fetch_all_results searchAt (generate_assertions llm u)).length <
      (generate_assertions llm u).length ∧
    dictLookup (fetch_all_results searchAt (generate_assertions llm u)) q =
      (((gatherResults searchAt (generate_assertions llm u)).filter
        (fun p => p.1 == q)).getLast?).elim none (fun p => some p.2) := by
  constructor
  · set as := generate_assertions llm u with has
    have hsub := fetch_all_keys_sublist searchAt as
    have hnd := fetch_all_keys_nodup searchAt as
    have hle := hsub.length_le
    rw [List.length_map] at hle
    refine Nat.lt_of_le_of_ne hle ?_
    intro heq
    have hlen : ((fetch_all_results searchAt as).map Prod.fst).length = as.length := by
      rw [List.length_map, heq]
    have := hsub.eq_of_length hlen
    rw [this] at hnd
    exact h hnd
  · have := dictLookup_foldl_last
      (gatherResults searchAt (generate_assertions llm u)) q []
    simpa [fetch_all_results] using this

/-- C9 witness: the Generator emits the same assumption twice. -/
theorem fetch_all_results_dup_collapse_witness :
    ¬ (generate_assertions (fun _ => Except.ok "* q\n* q") "u").Nodup ∧
    ((fetch_all_results (fun _ => Except.error "down")
        (generate_assertions (fun _ => Except.ok "* q\n* q") "u")).length <
      (generate_assertions (fun _ => Except.ok "* q\n* q") "u").length ∧
    dictLookup (fetch_all_results (fun _ => Except.error "down")
        (generate_assertions (fun _ => Except.ok "* q\n* q") "u")) " q" =
      (((gatherResults (fun _ => Except.error "down")
        (generate_assertions (fun _ => Except.ok "* q\n* q") "u")).filter
        (fun p => p.1 == " q")).getLast?).elim none (fun p => some p.2)) :=
  ⟨by decide,
    fetch_all_results_dup_collapse (fun _ => Except.ok "* q\n* q")
      (fun _ => Except.error "down") "u" " q" (by decide)⟩

/-! ### Assumption evaluation -/

/-- The `try` block of `evaluate_assertions` (lines 125–132): read
`context[0]` (IndexError — modelled as `none` — on an empty list) and the
`title`/`content`/`url` fields via `dict.get(key, "")`, which is total, so
no KeyError can arise once the index succeeds. -/
def readTopEvidence (context : List Evidence) : Option (String × String × String) :=
  match context[0]? with
  | none => none
  | some e => some (pyStrip (e.title.getD ""), pyStrip (e.content.getD ""),
      pyStrip (e.url.getD ""))

/-- The evaluation prompt f-string (lines 134–150). -/
def evaluation_prompt (user_input statement content : String) : String :=
  "Here is a statement:  \n" ++ pyStrip statement ++
  "  \n\nCarefully analyze the correctness of this statement using the provided information gathered from the internet:  \n"
  ++ content ++
  "  \n\n### Step-by-Step Evaluation:\n1. Identify the key claims made in the statement.  \n2. Cross-check these claims with the provided context and assess whether they align with verified information.  \n3. Consider any contradictions or missing details that might affect the validity of the statement.  \n4. Based on your reasoning, determine whether:\n```"
  ++ user_input ++
  "``` is Real News or Fake News.\n\n### Final Decision:  \n- If the above news is Real News then output *TRUE* else output *FALSE*.\n\nProvide your reasoning along with the final answer and include the source URL of the data.\n"

/-- One iteration of the loop in `evaluate_assertions` (lines 119–164):
skip on empty evidence, skip on a read error, skip on an LLM failure,
otherwise append the stripped response. -/
def evalStep (model_eval : String → Except String String) (user_input : String)
    (eval_response_list : List String) (entry : String × List Evidence) :
    List String :=
  if entry.2.isEmpty then eval_response_list
  else
    match readTopEvidence entry.2 with
    | none => eval_response_list
    | some (_title, content, _url) =>
      match model_eval (evaluation_prompt user_input entry.1 content) with
      | .error _ => eval_response_list
      | .ok resp => eval_response_list ++ [pyStrip resp]

/-- `evaluate_assertions` (lines 105–166): fold the loop body over the
EvidenceSet items in insertion order, starting from the empty judgment
list. -/
def evaluate_assertions (model_eval : String → Except String String)
    (user_input : String) (results_dict : List (String × List Evidence)) :
    List String :=
  results_dict.foldl (evalStep model_eval user_input) []

theorem foldl_evalStep_filter (m : String → Except String String) (u : String)
    (d : List (String × List Evidence)) :
    ∀ acc, d.foldl (evalStep m u) acc =
      (d.filter (fun p => !p.2.isEmpty)).foldl (evalStep m u) acc := by
  induction d with
  | nil => intro acc; rfl
  | cons p t ih =>
    intro acc
    by_cases he : p.2.isEmpty
    · have hstep : evalStep m u acc p = acc := by simp [evalStep, he]
      have hfil : (p :: t).filter (fun r => !r.2.isEmpty) =
          t.filter (fun r => !r.2.isEmpty) := by
        simp [List.filter_cons, he]
      rw [List.foldl_cons, hstep, hfil]
      exact ih acc
    · have hfil : (p :: t).filter (fun r => !r.2.isEmpty) =
          p :: t.filter (fun r => !r.2.isEmpty) := by
        simp [List.filter_cons, he]
      rw [hfil, List.foldl_cons, List.foldl_cons]
      exact ih (evalStep m u acc p)

/-- C5: assumptions with an empty evidence sequence contribute nothing to
`evaluate_assertions` — they are skipped before any LLM call, so the
judgment list equals the one computed from the non-empty entries alone. -/
theorem evaluate_assertions_skips_empty (model_eval : String → Except String String)
    (user_input : String) (results_dict : List (String × List Evidence)) :
    evaluate_assertions model_eval user_input results_dict =
      evaluate_assertions model_eval user_input
        (results_dict.filter (fun p => !p.2.isEmpty)) :=
  foldl_evalStep_filter model_eval user_input results_dict []

/-- C10: once the `if not context` guard has passed, reading the first
evidence record cannot fail: `context[0]` exists, and `dict.get` with a
default is total, so the IndexError/KeyError branch of
`evaluate_assertions` is unreachable. -/
theorem readTopEvidence_of_nonempty (context : List Evidence)
    (h : context.isEmpty = false) : (readTopEvidence context).isSome = true := by
  cases context with
  | nil => simp at h
  | cons e t => simp [readTopEvidence]

/-- C10 witness: a record with all three keys absent still reads fine. -/
theorem readTopEvidence_of_nonempty_witness :
    ([(⟨none, none, none⟩ : Evidence)].isEmpty = false) ∧
    (readTopEvidence [⟨none, none, none⟩]).isSome = true :=
  ⟨rfl, readTopEvidence_of_nonempty [⟨none, none, none⟩] rfl⟩

/-! ### Orchestration -/

/-- The synthesis prompt f-string (lines 176–205). -/
def synthesis_prompt (combined_text : String) : String :=
  "\nGeneral Prompt:\n\nYou are provided with a list of reasoning steps, where each step includes its chain-of-thought and a preliminary conclusion \nregarding the veracity of a news item (either \"FAKE\" or \"REAL\"). Your task is to synthesize these individual steps into a cohesive \noverall reasoning narrative, and provide a final verdict on whether the news is FAKE or REAL.\n\nInstructions:\n\n1. Read and understand each reasoning step below.\n2. Extract key evidence and conclusions.\n3. Combine these pieces into a single comprehensive chain-of-thought.\n4. Decide if the news is FAKE or REAL.\n5. Clearly justify your final decision in the combined narrative.\n6. Write the reasoning in such a way that people can easly understand.\n\nOutput Format:\nYour final output should contain two sections:\nOverall Reasoning: A detailed explanation that synthesizes the evidence and logic.\nFinal Result: A clear statement indicating either \"FAKE\" or \"REAL\".\n\nExample Output:\n\nFinal Result: [FAKE or REAL]\n\nOverall Reasoning: [Detailed explanation combining evidence and reasoning.]\n\nReasoning Steps:\n"
  ++ combined_text ++ "\n"

/-- `asyncprocess_and_evaluate` (lines 169–208): join the judgments with
blank lines, build the synthesis prompt, call the LLM once and strip the
response.  There is no `try` here: a synthesis failure propagates. -/
def asyncprocess_and_evaluate (model_eval : String → Except String String)
    (reasoning_list : List String) : Except String String :=
  let combined_text := String.intercalate "\n\n" reasoning_list
  (model_eval (synthesis_prompt combined_text)).map pyStrip

/-- `process_user_input` (lines 211–222): the whole pipeline.  Each stage's
external calls are distinct oracle arguments, so a result that is
independent of an oracle proves the corresponding stage was not invoked. -/
def process_user_input (llm : String → Except String String)
    (searchAt : Nat → Except String TavilyResponse)
    (model_eval : String → Except String String)
    (synth : String → Except String String)
    (user_input : String) :
    Except String (String × List (String × List Evidence)) :=
  let assertions_list := generate_assertions llm user_input
  if assertions_list.isEmpty then
    Except.ok ("No assertions generated. Cannot proceed.", [])
  else
    let results_dict := fetch_all_results searchAt assertions_list
    let eval_results := evaluate_assertions model_eval user_input results_dict
    (asyncprocess_and_evaluate synth eval_results).map fun fe => (fe, results_dict)

/-- C2: when the Generator returns no assertions, `process_user_input`
returns the fixed message with an empty EvidenceSet — for every choice of
search, evaluation and synthesis oracle, i.e. Fetcher, Evaluator and
Synthesizer are never invoked. -/
theorem process_user_input_no_assertions (llm : String → Except String String)
    (searchAt : Nat → Except String TavilyResponse)
    (model_eval synth : String → Except String String) (user_input : String)
    (h : generate_assertions llm user_input = []) :
    process_user_input llm searchAt model_eval synth user_input =
      Except.ok ("No assertions generated. Cannot proceed.", []) := by
  simp [process_user_input, h]

/-- C2 witness: a failing generation call short-circuits the pipeline —
even though the synthesis oracle here would answer REAL, it is never
asked. -/
theorem process_user_input_no_assertions_witness :
    process_user_input (fun _ => Except.error "boom") (fun _ => Except.error "down")
      (fun _ => Except.error "fail") (fun _ => Except.ok "Final Result: REAL")
      "claim" = Except.ok ("No assertions generated. Cannot proceed.", []) :=
  process_user_input_no_assertions (fun _ => Except.error "boom")
    (fun _ => Except.error "down") (fun _ => Except.error "fail")
    (fun _ => Except.ok "Final Result: REAL") "claim" rfl

end StreamlitApp
